import Mathlib

/-!
Verification of `src/qbo_sdp.py`: the SDP-relaxation builder `qbo_sdp_01` for
quadratic binary optimization (QBO), together with its inner validators
`check_operator`, `check_linear_constraint` and `check_quadratic_constraints`.

The development has two layers.

* A shape-level operational model (`QboSdp`): inputs are modelled as
  array-like objects carrying a shape tuple (or an exception raised by reading
  `.shape`), validation is modelled exactly as the Python code performs it
  (including its `try/except` structure and the exact message strings), the
  constraints the builder hands to cvxpy are modelled as a symbolic list, the
  single solver invocation is an event, and the two `time.time()` reads are
  modelled with an abstract clock.

* A semantic layer (`QboSdpSem`): the meaning of the cvxpy constraints built in
  lines 121-145 over real matrices, used for the relaxation-soundness property.
-/

namespace QboSdp

/-- The three relational operators the builder resolves from tokens:
`operator.le`, `operator.ge`, `operator.eq` (line 27 of `qbo_sdp.py`). -/
inductive Op where
  | le
  | ge
  | eq
deriving DecidableEq, Repr

/-- Python exception values that the validation paths of `qbo_sdp.py` raise or
propagate: `ValueError` with its message, `AttributeError`, `TypeError`, and a
catch-all for any other exception type (type name and message). -/
inductive PyExc where
  | valueError (msg : String)
  | attributeError (msg : String)
  | typeError (msg : String)
  | otherExc (typeName : String) (msg : String)
deriving DecidableEq, Repr

/-- Structural decidable equality for `Except` results, so that the model can
be evaluated on concrete inputs by `decide`. -/
instance {ε α : Type} [DecidableEq ε] [DecidableEq α] : DecidableEq (Except ε α) :=
  fun x y =>
    match x, y with
    | .ok a, .ok b =>
        if h : a = b then .isTrue (by rw [h])
        else .isFalse (fun hc => h (Except.ok.inj hc))
    | .error e, .error f =>
        if h : e = f then .isTrue (by rw [h])
        else .isFalse (fun hc => h (Except.error.inj hc))
    | .ok _, .error _ => .isFalse (fun hc => Except.noConfusion hc)
    | .error _, .ok _ => .isFalse (fun hc => Except.noConfusion hc)

/-- The Python type name of an exception value (what `type(ex).__name__` shows,
used in the message of the `TypeError` produced by calling an instance). -/
def excTypeName : PyExc → String
  | .valueError _ => "ValueError"
  | .attributeError _ => "AttributeError"
  | .typeError _ => "TypeError"
  | .otherExc n _ => n

/-- Whether an exception is a `ValueError` (i.e. is caught by the
`except ValueError` clauses at lines 70, 77 and 106). -/
def isValueError : PyExc → Bool
  | .valueError _ => true
  | _ => false

/-- Semantics of the Python statement `raise ex()` where `ex` is a caught
exception instance (lines 73, 80 and 109): exception instances are not
callable, so evaluating `ex()` itself raises
`TypeError("'<TypeName>' object is not callable")`, and that `TypeError` is
what propagates out of the handler in place of the original exception. -/
def raiseCalled (e : PyExc) : PyExc :=
  .typeError ("'" ++ excTypeName e ++ "' object is not callable")

/-- A value passed where `qbo_sdp.py` expects a numpy array: either an ndarray
(shape tuple plus flat row-major data), or a non-array object whose `.shape`
attribute access raises an exception. -/
inductive ArrLike where
  | nd (shape : List Nat) (data : List ℚ)
  | noShape (e : PyExc)
deriving DecidableEq, Repr

/-- Reading the `.shape` attribute of an array-like value. -/
def ArrLike.shapeAttr : ArrLike → Except PyExc (List Nat)
  | .nd s _ => .ok s
  | .noShape e => .error e

/-- Python's `repr` of a shape tuple, as interpolated into the f-string error
messages (`(3,)`, `(2, 3)`, `()`). -/
def fmtShape : List Nat → String
  | [] => "()"
  | [a] => "(" ++ toString a ++ ",)"
  | l => "(" ++ String.intercalate ", " (l.map toString) ++ ")"

/-- The dict `allowed_operators` of line 27, as an ordered association list:
`{'<=': operator.le, '>=': operator.ge, '==': operator.eq}`. -/
def allowed_operators : List (String × Op) :=
  [("<=", Op.le), (">=", Op.ge), ("==", Op.eq)]

/-- Python's `repr` of `list(allowed_operators.keys())`, interpolated into the
error message of `check_operator` (line 44). -/
def allowedKeysRepr : String :=
  "[" ++ String.intercalate ", "
    (allowed_operators.map (fun p => "'" ++ p.1 ++ "'")) ++ "]"

/-- The message of the `ValueError` raised by `check_operator` (line 44). -/
def invalidOpMsg (operator_as_string : String) : String :=
  "Operator " ++ operator_as_string ++ " is not allowed. Please use one of "
    ++ allowedKeysRepr

/-- `check_operator` (lines 29-46): look the token up in `allowed_operators`;
a missing key (`KeyError`) is converted into a `ValueError` whose message names
the token and lists the allowed tokens. (The trailing
`except Exception: raise(ex)` at lines 45-46 re-raises unchanged and is
unreachable for a dict lookup.) -/
def check_operator (operator_as_string : String) : Except PyExc Op :=
  match allowed_operators.lookup operator_as_string with
  | some op => .ok op
  | none => .error (.valueError (invalidOpMsg operator_as_string))

/-- `check_linear_constraint` (lines 49-85). The triple is unpacked as
`A, b, operator_as_string`; the operator is resolved first (line 67); then
`m_A, n_A = A.shape` inside `try` (lines 68-73): an unpack failure on a shape
tuple of length ≠ 2 is a `ValueError` replaced by the documented message, a
`ValueError` raised by reading `.shape` itself is re-raised while the handler
formats its message, and any other exception `ex` flows through `raise ex()`
(`raiseCalled`). The same handling applies to `m_b, = b.shape` (lines 75-80).
Finally line 82 tests `if not (n == n_A or m_A == m_b)` — note `or`, as in the
source — and otherwise returns `(A, b, _operator)` unchanged. -/
def check_linear_constraint (A b : ArrLike) (operator_as_string : String)
    (n : Nat) : Except PyExc (ArrLike × ArrLike × Op) :=
  match check_operator operator_as_string with
  | .error e => .error e
  | .ok _operator =>
    match A.shapeAttr with
    | .error ex =>
        if isValueError ex then .error ex else .error (raiseCalled ex)
    | .ok dimsA =>
      match dimsA with
      | [m_A, n_A] =>
        match b.shapeAttr with
        | .error ex =>
            if isValueError ex then .error ex else .error (raiseCalled ex)
        | .ok dimsB =>
          match dimsB with
          | [m_b] =>
              if !(n == n_A || m_A == m_b) then
                .error (.valueError
                  ("Incompatible dimensions. n=" ++ toString n ++ ", A=("
                    ++ toString m_A ++ ", " ++ toString n_A ++ "), b=("
                    ++ toString m_b ++ ")"))
              else
                .ok (A, b, _operator)
          | _ => .error (.valueError
              ("b has to be a numpy 1D array. Got: " ++ fmtShape dimsB))
      | _ => .error (.valueError
          ("A has to be a numpy 2D array of a shape (m, " ++ toString n
            ++ "). Got: " ++ fmtShape dimsA))

/-- The message of the `ValueError` raised for quadratic constraint `i`
(lines 107 and 112; both raise sites use the same f-string). -/
def quadMsg (i n : Nat) (got : String) : String :=
  "Q" ++ toString i ++ " has to be a square numpy 2D array of a shape ("
    ++ toString n ++ ", " ++ toString n ++ "). Got: " ++ got

/-- The loop body of `check_quadratic_constraints` (lines 102-114), carrying
the `enumerate` index `i`: each triple has its operator resolved (line 103),
then `m_Qi, n_Qi = Qi.shape` inside `try` (lines 104-109, same exception
handling as for `A.shape`), then line 111 requires `m_Qi == n_Qi and n == m_Qi`
and line 114 yields `(Qi, ri, _operator)`. -/
def checkQuadFrom (n : Nat) :
    Nat → List (ArrLike × ℚ × String) → Except PyExc (List (ArrLike × ℚ × Op))
  | _, [] => .ok []
  | i, (Qi, ri, operator_as_string) :: rest =>
      match check_operator operator_as_string with
      | .error e => .error e
      | .ok _operator =>
        match Qi.shapeAttr with
        | .error ex =>
            if isValueError ex then .error ex else .error (raiseCalled ex)
        | .ok dims =>
          match dims with
          | [m_Qi, n_Qi] =>
              if !(m_Qi == n_Qi && n == m_Qi) then
                .error (.valueError (quadMsg i n (fmtShape dims)))
              else
                match checkQuadFrom n (i + 1) rest with
                | .error e => .error e
                | .ok tail => .ok ((Qi, ri, _operator) :: tail)
          | _ => .error (.valueError (quadMsg i n (fmtShape dims)))

/-- The operator a valid token resolves to: on the three allowed tokens this is
the value `check_operator` returns (the `getD` default is never reached for
them). -/
def resolveOp (tok : String) : Op :=
  (allowed_operators.lookup tok).getD Op.le

/-- `check_quadratic_constraints` (lines 87-114). The Python function is a
generator; its sole consumer is the list comprehension at lines 143-145, which
exhausts it before the solver is called, so the model materialises the yielded
list, stopping at the first raised exception. (The Python generator body
iterates the enclosing function's `quadratic_constraints` variable — the
parameter is the misspelt, unused `quadratic_constrains` — but the only call
site, line 144, passes exactly that enclosing variable, so the consumed
sequence is the one modelled here.) -/
def check_quadratic_constraints (quadratic_constraints : List (ArrLike × ℚ × String))
    (n : Nat) : Except PyExc (List (ArrLike × ℚ × Op)) :=
  checkQuadFrom n 0 quadratic_constraints

/-- Symbolic form of one cvxpy constraint appended to the list `constraints`
by `qbo_sdp_01`. The first five correspond to lines 124-129, `linRow A i b op`
is the scalar constraint `_operator(A[i, :] @ x, b[i])` of lines 137-139, and
`quadTrace Qi ri op` is `_operator(cvx.trace(Qi @ X), ri)` of lines 143-145. -/
inductive Constr where
  | psdY
  | anchor
  | rowLink
  | boxLo
  | boxHi
  | linRow (A : ArrLike) (i : Nat) (b : ArrLike) (op : Op)
  | quadTrace (Qi : ArrLike) (ri : ℚ) (op : Op)
deriving DecidableEq, Repr

/-- The base constraint list of lines 124-129:
`[Y >> 0, Y[0, 0] == 1, Y[0, 1:] == x, x >= 0, x <= 1]`. -/
def baseConstraints : List Constr :=
  [Constr.psdY, Constr.anchor, Constr.rowLink, Constr.boxLo, Constr.boxHi]

/-- The objective of line 131: `cvx.Minimize(cvx.trace(Q @ X))`. -/
inductive Objective where
  | minimizeTraceQX (Q : ArrLike)
deriving DecidableEq, Repr

/-- Abstract wall-clock durations of the two phases between the two
`time.time()` reads of lines 117 and 149: `build` is the time consumed by
lines 119-147 (shape reading, constraint construction and validation) and
`solve` the time consumed by the `problem.solve(...)` call of line 148. -/
structure Timing where
  build : ℚ
  solve : ℚ
deriving DecidableEq, Repr

/-- Observable external events of one run of `qbo_sdp_01`: the only one that
matters here is the invocation of the external solver (line 148). -/
inductive Event where
  | solveCall
deriving DecidableEq, Repr

/-- What a completed run of `qbo_sdp_01` hands to cvxpy and reports back: the
constraint list and objective of `cvx.Problem(objective, constraints)`
(line 147) and the `runtime` of line 149. The solver outputs `problem.value`,
`x.value`, `X.value` and `problem.status` in the returned tuple come from the
external solver and are outside this model. -/
structure Outcome where
  constraints : List Constr
  objective : Objective
  runtime : ℚ
deriving DecidableEq, Repr

/-- The message of the uncaught `ValueError` raised by the bare tuple
unpacking `n, _ = Q.shape` at line 119 when the shape tuple does not have
exactly two components. -/
def unpack2Msg (dims : List Nat) : String :=
  if dims.length < 2 then
    "not enough values to unpack (expected 2, got " ++ toString dims.length ++ ")"
  else
    "too many values to unpack (expected 2)"

/-- Appending the quadratic-constraint part (lines 142-145) to an already built
constraint list. -/
def appendQuad (n : Nat) (built : List Constr)
    (quadratic_constraints : Option (List (ArrLike × ℚ × String))) :
    Except PyExc (List Constr) :=
  match quadratic_constraints with
  | none => .ok built
  | some qcs =>
      match check_quadratic_constraints qcs n with
      | .error e => .error e
      | .ok outs =>
          .ok (built ++ outs.map (fun t => Constr.quadTrace t.1 t.2.1 t.2.2))

/-- Constraint construction of lines 121-145 for a given `n`: the base list of
lines 124-129, then — if a linear constraint is present (line 133) — the
validated rows of lines 134-139 (line 135 re-reads `A_m, _ = A.shape`, which
cannot fail after successful validation; the `0` fallback is dead code), then —
if quadratic constraints are present (line 142) — the validated trace
constraints of lines 143-145. -/
def buildConstraints (n : Nat)
    (linear_constraint : Option (ArrLike × ArrLike × String))
    (quadratic_constraints : Option (List (ArrLike × ℚ × String))) :
    Except PyExc (List Constr) :=
  match linear_constraint with
  | none => appendQuad n baseConstraints quadratic_constraints
  | some (A, b, tok) =>
      match check_linear_constraint A b tok n with
      | .error e => .error e
      | .ok abop =>
          let A_m := match abop.1.shapeAttr with
            | .ok (m :: _) => m
            | _ => 0
          appendQuad n
            (baseConstraints ++
              (List.range A_m).map (fun i => Constr.linRow abop.1 i abop.2.1 abop.2.2))
            quadratic_constraints

/-- `qbo_sdp_01` (lines 10-156), at the shape level. `t0` is the value read by
`time.time()` at line 117 (before anything else runs). Line 119 unpacks
`Q.shape` with no `try/except`, so both an exception raised by reading
`.shape` and the unpacking `ValueError` propagate raw. On success the solver
is invoked once (the sole `Event.solveCall`) and the reported runtime is
`time.time() - start_time` (line 149), i.e. the clock after build and solve
minus `t0`. Every validation-failure path returns before line 148, so its
event trace is empty. -/
def qbo_sdp_01 (Q : ArrLike)
    (linear_constraint : Option (ArrLike × ArrLike × String))
    (quadratic_constraints : Option (List (ArrLike × ℚ × String)))
    (tm : Timing) (t0 : ℚ) :
    List Event × Except PyExc Outcome :=
  match Q.shapeAttr with
  | .error ex => ([], .error ex)
  | .ok dims =>
    match dims with
    | [n, _k] =>
        match buildConstraints n linear_constraint quadratic_constraints with
        | .error e => ([], .error e)
        | .ok cs =>
            ([Event.solveCall],
             .ok ⟨cs, Objective.minimizeTraceQX Q, t0 + tm.build + tm.solve - t0⟩)
    | _ => ([], .error (.valueError (unpack2Msg dims)))

end QboSdp

namespace QboSdpSem

open Matrix
open QboSdp (Op)

/-- The scalar relation denoted by a resolved operator (`operator.le`,
`operator.ge`, `operator.eq` applied to cvxpy scalar expressions). -/
def opSem : Op → ℝ → ℝ → Prop
  | .le, a, b => a ≤ b
  | .ge, a, b => a ≥ b
  | .eq, a, b => a = b

/-- The trailing n×n block `X = Y[1:, 1:]` of the lifted variable (line 122). -/
def blockX (n : ℕ) (Y : Matrix (Fin (n + 1)) (Fin (n + 1)) ℝ) :
    Matrix (Fin n) (Fin n) ℝ :=
  Matrix.of fun i j => Y i.succ j.succ

/-- The relaxed binary vector `x = cvx.diag(X)` (line 123). -/
def diagx (n : ℕ) (Y : Matrix (Fin (n + 1)) (Fin (n + 1)) ℝ) : Fin n → ℝ :=
  fun i => blockX n Y i i

/-- Membership of the symmetric matrix variable `Y` in the PSD cone: the
meaning of declaring `Y = cvx.Variable((n+1, n+1), symmetric=True)` (line 121)
and of the cvxpy constraint `Y >> 0` (line 125). -/
def isPSD {k : ℕ} (Y : Matrix (Fin k) (Fin k) ℝ) : Prop :=
  Y.IsSymm ∧ ∀ z : Fin k → ℝ, 0 ≤ z ⬝ᵥ (Y.mulVec z)

/-- The meaning of the full constraint set `qbo_sdp_01` submits to the solver:
lines 124-129 (`Y >> 0`, `Y[0, 0] == 1`, `Y[0, 1:] == x`, `x >= 0`, `x <= 1`),
plus — when present — the linear rows `A[i, :] @ x {op} b[i]` of lines 137-139
and the quadratic constraints `trace(Qi @ X) {op} ri` of lines 143-145. -/
def sdpFeasible (n m : ℕ)
    (lin : Option (Matrix (Fin m) (Fin n) ℝ × (Fin m → ℝ) × Op))
    (quads : List (Matrix (Fin n) (Fin n) ℝ × ℝ × Op))
    (Y : Matrix (Fin (n + 1)) (Fin (n + 1)) ℝ) : Prop :=
  isPSD Y ∧
  Y 0 0 = 1 ∧
  (∀ i : Fin n, Y 0 i.succ = diagx n Y i) ∧
  (∀ i : Fin n, 0 ≤ diagx n Y i) ∧
  (∀ i : Fin n, diagx n Y i ≤ 1) ∧
  (∀ c ∈ lin, ∀ i : Fin m, opSem c.2.2 (c.1 i ⬝ᵥ diagx n Y) (c.2.1 i)) ∧
  (∀ c ∈ quads, opSem c.2.2 (Matrix.trace (c.1 * blockX n Y)) c.2.1)

/-- The objective value `cvx.trace(Q @ X)` of line 131 at a given `Y`. -/
def sdpObj (n : ℕ) (Q : Matrix (Fin n) (Fin n) ℝ)
    (Y : Matrix (Fin (n + 1)) (Fin (n + 1)) ℝ) : ℝ :=
  Matrix.trace (Q * blockX n Y)

/-- The original QBO objective `xᵗ Q x`. -/
def qboObj (n : ℕ) (Q : Matrix (Fin n) (Fin n) ℝ) (x : Fin n → ℝ) : ℝ :=
  x ⬝ᵥ (Q.mulVec x)

/-- Feasibility of `x` for the original QBO problem that `qbo_sdp_01` relaxes:
`x ∈ {0, 1}ⁿ`, the linear side constraint `A x {op} b` rowwise when present,
and each quadratic side constraint `xᵗ Qi x {op} ri`. -/
def qboFeasible (n m : ℕ)
    (lin : Option (Matrix (Fin m) (Fin n) ℝ × (Fin m → ℝ) × Op))
    (quads : List (Matrix (Fin n) (Fin n) ℝ × ℝ × Op))
    (x : Fin n → ℝ) : Prop :=
  (∀ i, x i = 0 ∨ x i = 1) ∧
  (∀ c ∈ lin, ∀ i : Fin m, opSem c.2.2 (c.1 i ⬝ᵥ x) (c.2.1 i)) ∧
  (∀ c ∈ quads, opSem c.2.2 (qboObj n c.1 x) c.2.1)

/-- The homogenised vector `[1; x]`. -/
def homog (n : ℕ) (x : Fin n → ℝ) : Fin (n + 1) → ℝ :=
  Fin.cons 1 x

/-- The rank-one lift `Y = [1; x] [1; x]ᵗ` of a point `x`: the matrix whose
relaxation `Y ⪰ 0` the spec describes for the constraint `Y >> 0`. -/
def liftY (n : ℕ) (x : Fin n → ℝ) : Matrix (Fin (n + 1)) (Fin (n + 1)) ℝ :=
  Matrix.of fun i j => homog n x i * homog n x j

@[simp] lemma homog_zero (n : ℕ) (x : Fin n → ℝ) : homog n x 0 = 1 := rfl

@[simp] lemma homog_succ (n : ℕ) (x : Fin n → ℝ) (i : Fin n) :
    homog n x i.succ = x i := by
  simp [homog]

lemma blockX_liftY (n : ℕ) (x : Fin n → ℝ) (i j : Fin n) :
    blockX n (liftY n x) i j = x i * x j := by
  simp [blockX, liftY]

lemma diagx_liftY (n : ℕ) (x : Fin n → ℝ) (hx : ∀ i, x i = 0 ∨ x i = 1) :
    diagx n (liftY n x) = x := by
  funext i
  have h := blockX_liftY n x i i
  rcases hx i with h0 | h1
  · simp [diagx, h, h0]
  · simp [diagx, h, h1]

lemma liftY_isPSD (n : ℕ) (x : Fin n → ℝ) : isPSD (liftY n x) := by
  constructor
  · ext i j
    simp [liftY, Matrix.IsSymm, Matrix.transpose_apply, mul_comm]
  · intro z
    have h : z ⬝ᵥ ((liftY n x).mulVec z) =
        (∑ i, homog n x i * z i) * ∑ j, homog n x j * z j := by
      simp only [dotProduct, Matrix.mulVec, liftY, Matrix.of_apply]
      rw [Finset.sum_mul_sum]
      refine Finset.sum_congr rfl fun i _ => ?_
      rw [Finset.mul_sum]
      exact Finset.sum_congr rfl fun j _ => by ring
    rw [h]
    exact mul_self_nonneg _

lemma trace_mul_blockX_liftY (n : ℕ) (Q : Matrix (Fin n) (Fin n) ℝ)
    (x : Fin n → ℝ) :
    Matrix.trace (Q * blockX n (liftY n x)) = qboObj n Q x := by
  simp only [Matrix.trace, Matrix.diag_apply, Matrix.mul_apply, qboObj,
    dotProduct, Matrix.mulVec, blockX_liftY]
  refine Finset.sum_congr rfl fun i _ => ?_
  rw [Finset.mul_sum]
  exact Finset.sum_congr rfl fun j _ => by ring

/-- Any binary point feasible for the original problem lifts to a feasible
point of the relaxation with equal objective value. -/
lemma liftY_feasible (n m : ℕ)
    (lin : Option (Matrix (Fin m) (Fin n) ℝ × (Fin m → ℝ) × Op))
    (quads : List (Matrix (Fin n) (Fin n) ℝ × ℝ × Op))
    (x : Fin n → ℝ) (hx : qboFeasible n m lin quads x) :
    sdpFeasible n m lin quads (liftY n x) := by
  obtain ⟨hbin, hlin, hquad⟩ := hx
  have hdiag := diagx_liftY n x hbin
  refine ⟨liftY_isPSD n x, ?_, ?_, ?_, ?_, ?_, ?_⟩
  · simp [liftY]
  · intro i
    rw [hdiag]
    simp [liftY]
  · intro i
    rw [hdiag]
    rcases hbin i with h0 | h1
    · rw [h0]
    · rw [h1]; norm_num
  · intro i
    rw [hdiag]
    rcases hbin i with h0 | h1
    · rw [h0]; norm_num
    · rw [h1]
  · intro c hc i
    rw [hdiag]
    exact hlin c hc i
  · intro c hc
    rw [trace_mul_blockX_liftY]
    exact hquad c hc

end QboSdpSem

namespace QboSdp

lemma allowedKeysRepr_eq : allowedKeysRepr = "['<=', '>=', '==']" := by decide

lemma invalidOpMsg_eq (s : String) :
    invalidOpMsg s =
      "Operator " ++ s ++ " is not allowed. Please use one of ['<=', '>=', '==']" := by
  rw [invalidOpMsg, allowedKeysRepr_eq, String.append_assoc]
  have h : " is not allowed. Please use one of " ++ "['<=', '>=', '==']" =
      " is not allowed. Please use one of ['<=', '>=', '==']" := by decide
  rw [h]

/-- C8: for every string token, `check_operator` returns the corresponding
relational operator if and only if the token is one of "<=", ">=", "==" (giving
`operator.le`, `operator.ge`, `operator.eq` respectively); for every other
string it fails with the `ValueError` whose message names the offending token
and lists exactly the three allowed tokens. -/
theorem check_operator_spec (s : String) :
    (check_operator s = .ok Op.le ↔ s = "<=") ∧
    (check_operator s = .ok Op.ge ↔ s = ">=") ∧
    (check_operator s = .ok Op.eq ↔ s = "==") ∧
    (s ≠ "<=" → s ≠ ">=" → s ≠ "==" →
      check_operator s = .error (.valueError
        ("Operator " ++ s ++
          " is not allowed. Please use one of ['<=', '>=', '==']"))) := by
  by_cases h1 : s = "<="
  · subst h1
    exact ⟨by decide, by decide, by decide, fun h _ _ => absurd rfl h⟩
  by_cases h2 : s = ">="
  · subst h2
    exact ⟨by decide, by decide, by decide, fun _ h _ => absurd rfl h⟩
  by_cases h3 : s = "=="
  · subst h3
    exact ⟨by decide, by decide, by decide, fun _ _ h => absurd rfl h⟩
  have e1 : (s == "<=") = false := by simp [h1]
  have e2 : (s == ">=") = false := by simp [h2]
  have e3 : (s == "==") = false := by simp [h3]
  have hr : check_operator s = .error (.valueError (invalidOpMsg s)) := by
    simp [check_operator, allowed_operators, List.lookup, e1, e2, e3]
  rw [invalidOpMsg_eq] at hr
  refine ⟨⟨fun h => ?_, fun h => absurd h h1⟩,
          ⟨fun h => ?_, fun h => absurd h h2⟩,
          ⟨fun h => ?_, fun h => absurd h h3⟩,
          fun _ _ _ => hr⟩
  · rw [hr] at h; cases h
  · rw [hr] at h; cases h
  · rw [hr] at h; cases h

/-- C8 witness: at the concrete token "!=", the validator fails with the
message that names "!=" and lists the three allowed tokens. -/
theorem check_operator_spec_witness :
    check_operator "!=" = .error (.valueError
      ("Operator " ++ "!=" ++
        " is not allowed. Please use one of ['<=', '>=', '==']")) :=
  (check_operator_spec "!=").2.2.2 (by decide) (by decide) (by decide)

/-- C2, the code evaluated at the failing input: with n = 2, A of shape (1, 3)
and b of shape (1,), A's column count 3 differs from n = 2, yet validation
succeeds. Line 82 tests `if not (n == n_A or m_A == m_b)`, so the error is
raised only when the column-count check AND the row-count check both fail;
here m_A = m_b = 1 makes the disjunction true and the mismatched constraint is
accepted, contradicting the claimed DimensionError. -/
theorem check_linear_constraint_accepts_column_mismatch :
    check_linear_constraint (ArrLike.nd [1, 3] [1, 2, 3]) (ArrLike.nd [1] [1])
      "<=" 2 =
      .ok (ArrLike.nd [1, 3] [1, 2, 3], ArrLike.nd [1] [1], Op.le) := rfl

/-- C5, the code evaluated at the failing input: when reading `A.shape` raises
an AttributeError (A is a plain Python list, not array-like), the handler
`except Exception as ex: raise ex()` at lines 72-73 CALLS the caught exception
instance; exception instances are not callable, so what actually propagates is
`TypeError("'AttributeError' object is not callable")` — the original
exception is replaced, not re-raised as itself. -/
theorem shape_introspection_error_masked :
    check_linear_constraint
      (ArrLike.noShape
        (PyExc.attributeError "'list' object has no attribute 'shape'"))
      (ArrLike.nd [1] [1]) "<=" 2 =
      .error (PyExc.typeError "'AttributeError' object is not callable") := rfl

lemma check_operator_of_valid (tok : String)
    (h : tok = "<=" ∨ tok = ">=" ∨ tok = "==") :
    check_operator tok = .ok (resolveOp tok) := by
  rcases h with rfl | rfl | rfl <;> decide

lemma checkQuadFrom_ok (n : ℕ) (qcs : List (ArrLike × ℚ × String))
    (h : ∀ c ∈ qcs, c.1.shapeAttr = .ok [n, n] ∧
        (c.2.2 = "<=" ∨ c.2.2 = ">=" ∨ c.2.2 = "==")) :
    ∀ i : ℕ, checkQuadFrom n i qcs =
      .ok (qcs.map fun c => (c.1, c.2.1, resolveOp c.2.2)) := by
  induction qcs with
  | nil => intro i; rfl
  | cons c rest ih =>
      intro i
      obtain ⟨Qi, ri, tok⟩ := c
      obtain ⟨hsh, hop⟩ := h _ (List.mem_cons_self _ _)
      have ih2 := ih (fun d hd => h d (List.mem_cons_of_mem _ hd)) (i + 1)
      simp only at hsh hop
      unfold checkQuadFrom
      rw [check_operator_of_valid tok hop, hsh, ih2]
      simp

lemma buildConstraints_ok_shape (A b : ArrLike) (tok : String)
    (n m_A n_A : ℕ) (opL : Op)
    (qcs : List (ArrLike × ℚ × String)) (outs : List (ArrLike × ℚ × Op))
    (hA : A.shapeAttr = .ok [m_A, n_A])
    (hlin : check_linear_constraint A b tok n = .ok (A, b, opL))
    (hq : check_quadratic_constraints qcs n = .ok outs) :
    buildConstraints n (some (A, b, tok)) (some qcs) =
      .ok (baseConstraints
        ++ (List.range m_A).map (fun i => Constr.linRow A i b opL)
        ++ outs.map (fun t => Constr.quadTrace t.1 t.2.1 t.2.2)) := by
  simp only [buildConstraints, hlin, hA, appendQuad, hq]

/-- C1: whenever Q has shape (n, n) and the side constraints validate, the
problem the builder submits to the solver has exactly the base constraints
`[Y >> 0, Y[0, 0] == 1, Y[0, 1:] == x, x >= 0, x <= 1]` of lines 124-129 —
over the (n+1)×(n+1) symmetric matrix variable Y with X its trailing n×n block
and x the diagonal of X — followed by the appended linear rows and quadratic
trace side-constraints and nothing else, with objective
`Minimize(trace(Q @ X))`. -/
theorem builder_constraint_set_exact (Q A b : ArrLike) (tok : String)
    (n m_A n_A : ℕ) (opL : Op)
    (qcs : List (ArrLike × ℚ × String)) (outs : List (ArrLike × ℚ × Op))
    (tm : Timing) (t0 : ℚ)
    (hQ : Q.shapeAttr = .ok [n, n])
    (hA : A.shapeAttr = .ok [m_A, n_A])
    (hlin : check_linear_constraint A b tok n = .ok (A, b, opL))
    (hq : check_quadratic_constraints qcs n = .ok outs) :
    ∃ o : Outcome,
      (qbo_sdp_01 Q (some (A, b, tok)) (some qcs) tm t0).2 = .ok o ∧
      o.constraints =
        baseConstraints
          ++ (List.range m_A).map (fun i => Constr.linRow A i b opL)
          ++ outs.map (fun t => Constr.quadTrace t.1 t.2.1 t.2.2) ∧
      o.objective = Objective.minimizeTraceQX Q := by
  have hb := buildConstraints_ok_shape A b tok n m_A n_A opL qcs outs hA hlin hq
  refine ⟨⟨baseConstraints
      ++ (List.range m_A).map (fun i => Constr.linRow A i b opL)
      ++ outs.map (fun t => Constr.quadTrace t.1 t.2.1 t.2.2),
    Objective.minimizeTraceQX Q, t0 + tm.build + tm.solve - t0⟩, ?_, rfl, rfl⟩
  simp only [qbo_sdp_01, hQ, hb]

/-- C1 witness: a concrete 2×2 instance with one linear row and one quadratic
side constraint yields exactly the base constraints followed by the two
side constraints, with the minimize-trace objective. -/
theorem builder_constraint_set_exact_witness :
    ∃ o : Outcome,
      (qbo_sdp_01 (ArrLike.nd [2, 2] [2, -1, -1, 2])
        (some (ArrLike.nd [1, 2] [1, 1], ArrLike.nd [1] [1], "<="))
        (some [(ArrLike.nd [2, 2] [1, 0, 0, 1], (1 : ℚ), ">=")]) ⟨1, 1⟩ 0).2 =
        .ok o ∧
      o.constraints =
        baseConstraints
          ++ (List.range 1).map (fun i =>
              Constr.linRow (ArrLike.nd [1, 2] [1, 1]) i (ArrLike.nd [1] [1]) Op.le)
          ++ [(ArrLike.nd [2, 2] [1, 0, 0, 1], (1 : ℚ), Op.ge)].map
              (fun t => Constr.quadTrace t.1 t.2.1 t.2.2) ∧
      o.objective = Objective.minimizeTraceQX (ArrLike.nd [2, 2] [2, -1, -1, 2]) :=
  builder_constraint_set_exact (ArrLike.nd [2, 2] [2, -1, -1, 2])
    (ArrLike.nd [1, 2] [1, 1]) (ArrLike.nd [1] [1]) "<=" 2 1 2 Op.le
    [(ArrLike.nd [2, 2] [1, 0, 0, 1], (1 : ℚ), ">=")]
    [(ArrLike.nd [2, 2] [1, 0, 0, 1], (1 : ℚ), Op.ge)]
    ⟨1, 1⟩ 0 rfl rfl rfl rfl

/-- C4: on every run in which validation fails (the builder's result is a
raised exception), the external solver is never invoked: the event trace
contains no solve call. Every error path — the bare Q-shape unpack of line
119, linear-constraint validation at line 134, and errors raised while the
list comprehension of lines 143-145 exhausts the quadratic-constraint
generator — returns before `problem.solve` at line 148. -/
theorem no_solve_call_on_validation_failure (Q : ArrLike)
    (lin : Option (ArrLike × ArrLike × String))
    (quads : Option (List (ArrLike × ℚ × String)))
    (tm : Timing) (t0 : ℚ) (e : PyExc)
    (h : (qbo_sdp_01 Q lin quads tm t0).2 = .error e) :
    Event.solveCall ∉ (qbo_sdp_01 Q lin quads tm t0).1 := by
  cases hs : Q.shapeAttr with
  | error ex => simp [qbo_sdp_01, hs]
  | ok dims =>
      rcases dims with _ | ⟨a, _ | ⟨k, _ | ⟨c, r⟩⟩⟩
      · simp [qbo_sdp_01, hs]
      · simp [qbo_sdp_01, hs]
      · cases hb : buildConstraints a lin quads with
        | error e2 => simp [qbo_sdp_01, hs, hb]
        | ok cs => simp [qbo_sdp_01, hs, hb] at h
      · simp [qbo_sdp_01, hs]

/-- C4 witness: a run whose linear constraint carries the invalid operator
token "!=" fails validation, and its event trace contains no solver call. -/
theorem no_solve_call_on_validation_failure_witness :
    Event.solveCall ∉ (qbo_sdp_01 (ArrLike.nd [2, 2] [1, 0, 0, 1])
      (some (ArrLike.nd [1, 2] [1, 1], ArrLike.nd [1] [1], "!="))
      none ⟨1, 1⟩ 0).1 :=
  no_solve_call_on_validation_failure (ArrLike.nd [2, 2] [1, 0, 0, 1])
    (some (ArrLike.nd [1, 2] [1, 1], ArrLike.nd [1] [1], "!=")) none ⟨1, 1⟩ 0
    (PyExc.valueError (invalidOpMsg "!=")) rfl

/-- C7 counterexample: on a successful run with one time unit spent in
construction/validation and one time unit in the solve call (timer started at
t0 = 5 by line 117), the reported runtime is 2, not the solve duration 1 —
refuting the claim that the runtime measures the solve call only. -/
theorem runtime_not_solve_only_cex :
    ∃ o : Outcome,
      (qbo_sdp_01 (ArrLike.nd [2, 2] [1, 0, 0, 1]) none none ⟨1, 1⟩ 5).2 =
        .ok o ∧
      o.runtime = 2 ∧
      (Timing.mk 1 1).solve ≠ o.runtime := by
  refine ⟨_, rfl, ?_, ?_⟩
  · show (5 : ℚ) + 1 + 1 - 5 = 2
    norm_num
  · show (1 : ℚ) ≠ 5 + 1 + 1 - 5
    norm_num

/-- C7 amended: the runtime reported on every successful run equals the
construction/validation time PLUS the solve time: `start_time` is read at line
117, before `n, _ = Q.shape` and all constraint construction, so construction
time is included in the reported runtime rather than excluded. -/
theorem runtime_spans_construction_and_solve (Q : ArrLike)
    (lin : Option (ArrLike × ArrLike × String))
    (quads : Option (List (ArrLike × ℚ × String)))
    (tm : Timing) (t0 : ℚ) (o : Outcome)
    (h : (qbo_sdp_01 Q lin quads tm t0).2 = .ok o) :
    o.runtime = tm.build + tm.solve := by
  cases hs : Q.shapeAttr with
  | error ex => simp [qbo_sdp_01, hs] at h
  | ok dims =>
      rcases dims with _ | ⟨a, _ | ⟨k, _ | ⟨c, r⟩⟩⟩
      · simp [qbo_sdp_01, hs] at h
      · simp [qbo_sdp_01, hs] at h
      · cases hb : buildConstraints a lin quads with
        | error e2 => simp [qbo_sdp_01, hs, hb] at h
        | ok cs =>
            simp only [qbo_sdp_01, hs, hb] at h
            rw [← Except.ok.inj h]
            show t0 + tm.build + tm.solve - t0 = tm.build + tm.solve
            ring
      · simp [qbo_sdp_01, hs] at h

/-- C7 amended, witness: on the concrete run of the counterexample the
reported runtime equals build time plus solve time, 1 + 1. -/
theorem runtime_spans_construction_and_solve_witness :
    (Outcome.mk baseConstraints
      (Objective.minimizeTraceQX (ArrLike.nd [2, 2] [1, 0, 0, 1]))
      ((5 : ℚ) + 1 + 1 - 5)).runtime = (Timing.mk 1 1).build + (Timing.mk 1 1).solve :=
  runtime_spans_construction_and_solve (ArrLike.nd [2, 2] [1, 0, 0, 1])
    none none ⟨1, 1⟩ 5 _ rfl

/-- C9 counterexample: for the 1-D input Q of shape (3,), the builder fails
with the bare unpacking ValueError of line 119, whose message
"not enough values to unpack (expected 2, got 1)" does not contain Q's actual
shape "(3,)" — no DimensionError reporting expected versus actual shape is
produced. -/
theorem q_shape_error_lacks_shapes_cex :
    (qbo_sdp_01 (ArrLike.nd [3] [1, 2, 3]) none none ⟨1, 1⟩ 0).2 =
      .error (PyExc.valueError
        "not enough values to unpack (expected 2, got 1)") ∧
    ¬ ((fmtShape [3]).toList <:+:
        "not enough values to unpack (expected 2, got 1)".toList) :=
  ⟨rfl, by decide⟩

/-- C9 amended: for every array Q whose shape does not have exactly two
components, the builder fails immediately — before building any constraint or
calling the solver — but with the bare tuple-unpacking ValueError of line 119,
not with a DimensionError carrying the expected versus actual shape. -/
theorem q_wrong_ndim_raw_unpack_failure (shape : List Nat) (data : List ℚ)
    (lin : Option (ArrLike × ArrLike × String))
    (quads : Option (List (ArrLike × ℚ × String)))
    (tm : Timing) (t0 : ℚ)
    (h : shape.length ≠ 2) :
    qbo_sdp_01 (ArrLike.nd shape data) lin quads tm t0 =
      ([], .error (.valueError (unpack2Msg shape))) := by
  rcases shape with _ | ⟨a, _ | ⟨k, _ | ⟨c, r⟩⟩⟩
  · rfl
  · rfl
  · exact absurd rfl h
  · rfl

/-- C9 amended, witness: the 1-D Q of shape (3,) aborts with the raw
unpacking ValueError and an empty event trace. -/
theorem q_wrong_ndim_raw_unpack_failure_witness :
    qbo_sdp_01 (ArrLike.nd [3] [1, 2, 3]) none none ⟨1, 1⟩ 0 =
      ([], .error (.valueError (unpack2Msg [3]))) :=
  q_wrong_ndim_raw_unpack_failure [3] [1, 2, 3] none none ⟨1, 1⟩ 0 (by decide)

/-- C10: calling the builder with an empty collection of quadratic constraints
produces exactly the same result — constraint list, objective, runtime and
event trace — as calling it with None: line 142 only tests `is not None`, and
for the empty collection the comprehension of lines 143-145 appends nothing. -/
theorem quad_empty_iff_none (Q : ArrLike)
    (lin : Option (ArrLike × ArrLike × String)) (tm : Timing) (t0 : ℚ) :
    qbo_sdp_01 Q lin (some []) tm t0 = qbo_sdp_01 Q lin none tm t0 := by
  have ha : ∀ n built, appendQuad n built (some []) = appendQuad n built none := by
    intro n built
    simp [appendQuad, check_quadratic_constraints, checkQuadFrom]
  have hb : ∀ n, buildConstraints n lin (some []) = buildConstraints n lin none := by
    intro n
    rcases lin with _ | ⟨A, b, tok⟩
    · simp only [buildConstraints]
      exact ha n _
    · simp only [buildConstraints]
      cases hc : check_linear_constraint A b tok n with
      | error e => rfl
      | ok abop => exact ha n _
  cases hs : Q.shapeAttr with
  | error ex => simp [qbo_sdp_01, hs]
  | ok dims =>
      rcases dims with _ | ⟨a, _ | ⟨k, _ | ⟨c, r⟩⟩⟩
      · simp [qbo_sdp_01, hs]
      · simp [qbo_sdp_01, hs]
      · simp only [qbo_sdp_01, hs, hb a]
      · simp [qbo_sdp_01, hs]

/-- C6: for every finite ordered collection of quadratic-constraint triples
(Qi, ri, token) in which each Qi has shape (n, n) and each token is a valid
operator token, validation yields exactly one output triple per input triple,
in input order, with Qi and ri unchanged and the token resolved to its
operator. -/
theorem quad_validation_order_preserving (n : ℕ)
    (qcs : List (ArrLike × ℚ × String))
    (h : ∀ c ∈ qcs, c.1.shapeAttr = .ok [n, n] ∧
        (c.2.2 = "<=" ∨ c.2.2 = ">=" ∨ c.2.2 = "==")) :
    check_quadratic_constraints qcs n =
      .ok (qcs.map fun c => (c.1, c.2.1, resolveOp c.2.2)) :=
  checkQuadFrom_ok n qcs h 0

/-- C6 witness: two concrete valid triples are validated into exactly two
output triples, in input order, with Qi and ri unchanged. -/
theorem quad_validation_order_preserving_witness :
    check_quadratic_constraints
      [(ArrLike.nd [2, 2] [1, 0, 0, 1], (1 : ℚ), "<="),
       (ArrLike.nd [2, 2] [0, 1, 1, 0], (2 : ℚ), "==")] 2 =
      .ok [(ArrLike.nd [2, 2] [1, 0, 0, 1], (1 : ℚ), Op.le),
           (ArrLike.nd [2, 2] [0, 1, 1, 0], (2 : ℚ), Op.eq)] :=
  (quad_validation_order_preserving 2
    [(ArrLike.nd [2, 2] [1, 0, 0, 1], (1 : ℚ), "<="),
     (ArrLike.nd [2, 2] [0, 1, 1, 0], (2 : ℚ), "==")] (by decide)).trans
    (by decide)

end QboSdp

namespace QboSdpSem

open Matrix
open QboSdp (Op)

/-- C3: relaxation soundness. If `v` is a lower bound of the relaxation's
objective over the full constraint set the builder submits — as the optimal
value returned for the minimization problem is — then `v` is at most the true
optimum of the original QBO problem min xᵗQx over binary x subject to the same
side constraints: every feasible binary point lifts into the relaxation's
feasible set with equal objective value. -/
theorem relaxation_sound (n m : ℕ)
    (Q : Matrix (Fin n) (Fin n) ℝ)
    (lin : Option (Matrix (Fin m) (Fin n) ℝ × (Fin m → ℝ) × Op))
    (quads : List (Matrix (Fin n) (Fin n) ℝ × ℝ × Op))
    (v opt : ℝ)
    (hv : ∀ Y, sdpFeasible n m lin quads Y → v ≤ sdpObj n Q Y)
    (hopt : IsLeast {c : ℝ | ∃ x, qboFeasible n m lin quads x ∧
      qboObj n Q x = c} opt) :
    v ≤ opt := by
  obtain ⟨⟨x, hx, hobj⟩, _⟩ := hopt
  have h1 := hv (liftY n x) (liftY_feasible n m lin quads x hx)
  rw [sdpObj, trace_mul_blockX_liftY, hobj] at h1
  exact h1

/-- C3 witness: at n = 1 with Q = [[1]] and no side constraints, v = 0 lower
bounds the relaxation objective over the feasible set, the QBO optimum is 0
(attained at x = 0), and the bound 0 ≤ 0 holds. -/
theorem relaxation_sound_witness : (0 : ℝ) ≤ 0 :=
  relaxation_sound 1 0 1 none [] 0 0
    (fun Y hY => by
      have h4 := hY.2.2.2.1 0
      have hobj : sdpObj 1 1 Y = diagx 1 Y 0 := by
        simp [sdpObj, Matrix.one_mul, Matrix.trace, Matrix.diag,
          Fin.sum_univ_one, diagx]
      rw [hobj]
      exact h4)
    ⟨⟨fun _ => (0 : ℝ),
      ⟨fun _ => Or.inl rfl,
       fun c _ i => i.elim0,
       by intro c hc; exact absurd hc (List.not_mem_nil c)⟩,
      by simp [qboObj, dotProduct]⟩,
     by
      rintro c ⟨y, hy, rfl⟩
      have h : qboObj 1 1 y = y 0 * y 0 := by
        simp [qboObj, Matrix.one_mulVec, dotProduct, Fin.sum_univ_one]
      rw [h]
      exact mul_self_nonneg _⟩

end QboSdpSem
